import Mathlib

/-!
Verification development for the cached file protocol
(libavformat/cached_file.c): a buffered, URL-addressable file-access
layer over C stdio.  The C functions are shallowly embedded below.
Calls into the OS / C library (fopen, fread, fwrite, fseeko, fstat,
stat, fflush, fsync, fclose) are modelled by explicit oracle
parameters carrying the outcome the OS reports for that call, and a
small stream-state record models the fully-buffered FILE stream
(bytes already in the OS file, bytes still pending in the stdio
buffer, logical position).
-/

namespace CachedFile

/-- FFmpeg error mapping: AVERROR(e) is the negated errno value. -/
def AVERROR (e : Nat) : Int := -(e : Int)

/-- avio flag for read access (value 1 in avio.h). -/
def AVIO_FLAG_READ : Nat := 1

/-- avio flag for write access (value 2 in avio.h). -/
def AVIO_FLAG_WRITE : Nat := 2

/-- Special whence value for a size query (0x10000 in avio.h). -/
def AVSEEK_SIZE : Nat := 65536

/-- POSIX errno for a missing system call (Linux value 38). -/
def ENOSYS : Nat := 38

/-- Owner-read permission bit of st_mode (octal 0400). -/
def S_IRUSR : Nat := 256

/-- Owner-write permission bit of st_mode (octal 0200). -/
def S_IWUSR : Nat := 128

/-- The struct CachedFileContext private data of a handle: descriptor,
configured buffer size, write-mode flag, and the owned buffer.  The
buffer pointer is modelled as `none` (NULL) or `some n` (an allocated
block of n bytes). -/
structure CachedFileContext where
  fd : Nat
  buf_size : Nat
  write_flags : Nat
  buf : Option Nat
deriving DecidableEq, Repr

/-- Loop of av_strstart: walk both strings while the pfx characters
match; `some rest` is the remainder of s when all of pfx matched,
`none` when a character differed or s ended first. -/
def strstartAux : List Char → List Char → Option (List Char)
  | [], s => some s
  | _ :: _, [] => none
  | p :: ps, c :: cs => if p = c then strstartAux ps cs else none

/-- Model of av_strstart(s, pfx, &s): when s starts with pfx the
pointer is advanced past it, otherwise s is left unchanged. -/
def av_strstart (s pfx : String) : String :=
  match strstartAux pfx.data s.data with
  | some rest => String.mk rest
  | none => s

/-- Outcome the C library reports for one fread or fwrite call: the
number of bytes actually transferred, and whether an OS I/O error
occurred during the transfer (the stream error flag).  The stdio
contract guarantees count does not exceed the requested size. -/
structure TransferResult where
  count : Nat
  err : Bool
deriving DecidableEq, Repr

/-- cached_file_read: returns (int)fread(buf, 1, size, c->f), i.e. the
transfer count itself, whatever the error flag says. -/
def cached_file_read (c : CachedFileContext) (size : Nat) (r : TransferResult) : Int :=
  (r.count : Int)

/-- cached_file_write: returns (int)fwrite(buf, 1, size, c->f), i.e.
the transfer count itself, whatever the error flag says. -/
def cached_file_write (c : CachedFileContext) (size : Nat) (r : TransferResult) : Int :=
  (r.count : Int)

/-- cached_file_get_handle: returns the stored descriptor. -/
def cached_file_get_handle (c : CachedFileContext) : Nat :=
  c.fd

/-- cached_file_check.  The file system is modelled as a map from a
path to `some mode` (the st_mode permission bits stat reports) or
`none` when stat fails with the given errno.  The C code strips the
literal "file:" token from h->filename, calls stat, and on success
ors together the requested-and-permitted access bits starting from
the stat return value 0. -/
def cached_file_check (fs : String → Option Nat) (errno : Nat)
    (filename : String) (mask : Nat) : Int :=
  let fn := av_strstart filename "file:"
  match fs fn with
  | none => AVERROR errno
  | some mode =>
      let r1 : Nat := if mode &&& S_IRUSR ≠ 0 then mask &&& AVIO_FLAG_READ else 0
      let r2 : Nat := if mode &&& S_IWUSR ≠ 0 then mask &&& AVIO_FLAG_WRITE else 0
      ((r1 ||| r2 : Nat) : Int)

/-- cached_file_delete: unconditionally AVERROR(ENOSYS). -/
def cached_file_delete (h : CachedFileContext) : Int :=
  AVERROR ENOSYS

/-- cached_file_move: unconditionally AVERROR(ENOSYS). -/
def cached_file_move (h_src h_dst : CachedFileContext) : Int :=
  AVERROR ENOSYS

/-- State of the buffered FILE stream: bytes already committed to the
OS file, written bytes still pending in the stdio buffer, and the
logical stream position. -/
structure StreamState where
  fileSize : Nat
  pending : Nat
  pos : Int
deriving DecidableEq, Repr

/-- Effect of fflush on a fully buffered stream: pending written bytes
reach the OS file; the logical position is unchanged. -/
def fflushStream (s : StreamState) : StreamState :=
  { s with fileSize := s.fileSize + s.pending, pending := 0 }

/-- Outcomes the OS reports for the calls cached_file_seek can make:
fstat (errno on failure, else the post-flush file size is reported),
fseeko (errno on failure), and ftello (its return value, with the
errno used when that value is negative). -/
structure SeekOS where
  fstatErr : Option Nat
  fseekErr : Option Nat
  ftellRes : Int
  tellErrno : Nat
deriving DecidableEq, Repr

/-- cached_file_seek.  With whence = AVSEEK_SIZE it flushes the
stream, fstats the descriptor and returns the file size (or the
mapped errno), leaving the logical position alone.  Otherwise it
fseeks (which flushes pending output and repositions) and returns
ftello, mapping negative outcomes to AVERROR(errno).  Returns the
result value together with the stream state afterwards. -/
def cached_file_seek (c : CachedFileContext) (s : StreamState)
    (pos : Int) (whence : Nat) (os : SeekOS) : Int × StreamState :=
  if whence = AVSEEK_SIZE then
    let s2 := fflushStream s
    match os.fstatErr with
    | some e => (AVERROR e, s2)
    | none => ((s2.fileSize : Int), s2)
  else
    match os.fseekErr with
    | some e => (AVERROR e, s)
    | none =>
        let s2 := { fflushStream s with pos := os.ftellRes }
        if os.ftellRes < 0 then (AVERROR os.tellErrno, s2)
        else (os.ftellRes, s2)

/-- Everything cached_file_open produces: the return code, the private
data on success (`none` when fopen failed), the fopen mode string it
chose, the filename after stripping the "cf:" token, and whether
setvbuf attached the buffer in fully buffered (_IOFBF) mode. -/
structure OpenResult where
  ret : Int
  ctx : Option CachedFileContext
  mode : String
  path : String
  fullyBuffered : Bool
deriving DecidableEq, Repr

/-- cached_file_open.  fopenRes is the OS outcome of fopen: `some fd`
when it succeeds (fd being fileno of the stream), `none` when it
fails with the given errno.  av_malloc is modelled as always
succeeding, as the C code never checks its result. -/
def cached_file_open (buf_size : Nat) (filename : String) (flags : Nat)
    (fopenRes : Option Nat) (errno : Nat) : OpenResult :=
  let fn := av_strstart filename "cf:"
  let mw : String × Nat :=
    if flags &&& AVIO_FLAG_WRITE ≠ 0 ∧ flags &&& AVIO_FLAG_READ ≠ 0 then ("w+b", 1)
    else if flags &&& AVIO_FLAG_WRITE ≠ 0 then ("wb", 1)
    else ("rb", 0)
  match fopenRes with
  | none =>
      { ret := AVERROR errno, ctx := none, mode := mw.1, path := fn
        fullyBuffered := false }
  | some fd =>
      let buf : Option Nat := if buf_size ≠ 0 then some buf_size else none
      { ret := 0
        ctx := some { fd := fd, buf_size := buf_size, write_flags := mw.2, buf := buf }
        mode := mw.1, path := fn
        fullyBuffered := buf_size ≠ 0 }

/-- Outcomes the OS reports for the calls cached_file_close can make:
the fsync result (errno on failure; the C code never inspects it) and
the fclose result (errno on failure). -/
structure CloseOS where
  fsyncErr : Option Nat
  fcloseErr : Option Nat
deriving DecidableEq, Repr

/-- Everything cached_file_close produces: the return code, how many
times av_free(c->buf) ran, and whether fflush and fsync were invoked. -/
structure CloseResult where
  ret : Int
  freeCalls : Nat
  flushed : Bool
  synced : Bool
deriving DecidableEq, Repr

/-- cached_file_close.  When write_flags is set it calls fflush and
fsync, ignoring both results.  Then r = fclose: when r is nonzero it
returns AVERROR(errno) at once — without reaching av_free — and only
on fclose success does it free the buffer and return 0. -/
def cached_file_close (c : CachedFileContext) (os : CloseOS) : CloseResult :=
  let w : Bool := c.write_flags != 0
  match os.fcloseErr with
  | some e => { ret := AVERROR e, freeCalls := 0, flushed := w, synced := w }
  | none => { ret := 0, freeCalls := 1, flushed := w, synced := w }

/-- One transfer or positioning operation on an open handle, with the
OS outcome it observes. -/
inductive FileOp where
  | rd (size : Nat) (r : TransferResult)
  | wr (size : Nat) (r : TransferResult)
  | sk (pos : Int) (whence : Nat) (os : SeekOS)
deriving DecidableEq, Repr

/-- Apply one operation between open and close.  None of
cached_file_read, cached_file_write, cached_file_seek assigns to any
field of CachedFileContext, so the context component passes through
unchanged, exactly as in the C code. -/
def applyOp (c : CachedFileContext) (s : StreamState) :
    FileOp → CachedFileContext × StreamState × Int
  | FileOp.rd size r => (c, s, cached_file_read c size r)
  | FileOp.wr size r => (c, s, cached_file_write c size r)
  | FileOp.sk pos whence os =>
      let q := cached_file_seek c s pos whence os
      (c, q.2, q.1)

/-- Run a sequence of operations on an open handle, threading the
context and stream state. -/
def runOps (c : CachedFileContext) (s : StreamState) :
    List FileOp → CachedFileContext × StreamState
  | [] => (c, s)
  | op :: l =>
      let q := applyOp c s op
      runOps q.1 q.2.1 l

/-- Concrete one-file file system used to evaluate cached_file_check:
the bare path "x" exists with owner-read permission only; every other
path (in particular the unstripped "cf:x") does not exist. -/
def fsC5 : String → Option Nat :=
  fun p => if p = "x" then some S_IRUSR else none

theorem applyOp_ctx (c : CachedFileContext) (s : StreamState) (op : FileOp) :
    (applyOp c s op).1 = c := by
  cases op <;> rfl

theorem runOps_ctx (l : List FileOp) (c : CachedFileContext) (s : StreamState) :
    (runOps c s l).1 = c := by
  induction l generalizing c s with
  | nil => rfl
  | cons op l ih =>
      show (runOps (applyOp c s op).1 (applyOp c s op).2.1 l).1 = c
      rw [applyOp_ctx]
      exact ih c (applyOp c s op).2.1

theorem testBit_one_eq (i : Nat) : Nat.testBit 1 i = decide (i = 0) := by
  cases i with
  | zero => decide
  | succ j => rw [Nat.testBit_succ]; simp [Nat.zero_testBit]

theorem testBit_two_eq (i : Nat) : Nat.testBit 2 i = decide (i = 1) := by
  cases i with
  | zero => decide
  | succ j =>
      rw [Nat.testBit_succ, show (2 : Nat) / 2 = 1 from rfl, testBit_one_eq]
      rw [decide_eq_decide]
      omega

theorem check_result_testBit (mask mode i : Nat) :
    (((if mode &&& S_IRUSR ≠ 0 then mask &&& 1 else 0) |||
      (if mode &&& S_IWUSR ≠ 0 then mask &&& 2 else 0) : Nat)).testBit i =
      ((mask.testBit i && (decide (i = 0) && decide (mode &&& S_IRUSR ≠ 0))) ||
       (mask.testBit i && (decide (i = 1) && decide (mode &&& S_IWUSR ≠ 0)))) := by
  by_cases h1 : mode &&& S_IRUSR ≠ 0 <;> by_cases h2 : mode &&& S_IWUSR ≠ 0
  · simp only [if_pos h1, if_pos h2, decide_eq_true h1, decide_eq_true h2,
      Nat.testBit_lor, Nat.testBit_land, testBit_one_eq, testBit_two_eq,
      Bool.and_true]
  · simp only [if_pos h1, if_neg h2, decide_eq_true h1, decide_eq_false h2,
      Nat.testBit_lor, Nat.testBit_land, testBit_one_eq, Nat.zero_testBit,
      Bool.and_true, Bool.and_false, Bool.or_false]
  · simp only [if_neg h1, if_pos h2, decide_eq_false h1, decide_eq_true h2,
      Nat.testBit_lor, Nat.testBit_land, testBit_two_eq, Nat.zero_testBit,
      Bool.and_true, Bool.and_false, Bool.or_false, Bool.false_or]
  · simp only [if_neg h1, if_neg h2, decide_eq_false h1, decide_eq_false h2,
      Nat.testBit_lor, Nat.zero_testBit, Bool.and_false, Bool.or_false]

/-- Claim C1: the claim demands that cached_file_close frees the owned
buffer exactly once whether it succeeds or fails; the code evaluated at
a failing input shows otherwise.  When fclose fails (errno 5) the
function returns AVERROR(5) before ever reaching av_free, so the buffer
of this handle is freed zero times (leaked); only on fclose success is
it freed exactly once. -/
theorem c1_close_buffer_leak :
    (cached_file_close ⟨3, 1024, 1, some 1024⟩ ⟨none, some 5⟩).ret = AVERROR 5 ∧
    (cached_file_close ⟨3, 1024, 1, some 1024⟩ ⟨none, some 5⟩).freeCalls = 0 ∧
    (cached_file_close ⟨3, 1024, 1, some 1024⟩ ⟨none, none⟩).ret = 0 ∧
    (cached_file_close ⟨3, 1024, 1, some 1024⟩ ⟨none, none⟩).freeCalls = 1 := by
  decide

/-- Claim C2: the claim demands that cached_file_close returns a
negative error whenever the fsync call fails; the code evaluated at a
failing input shows otherwise.  On a write-mode handle whose fsync
fails (errno 5) while fclose succeeds, fsync was invoked but its result
is ignored and close returns 0 (success), not a negative code. -/
theorem c2_close_ignores_fsync_failure :
    (cached_file_close ⟨3, 1024, 1, some 1024⟩ ⟨some 5, none⟩).synced = true ∧
    (cached_file_close ⟨3, 1024, 1, some 1024⟩ ⟨some 5, none⟩).flushed = true ∧
    (cached_file_close ⟨3, 1024, 1, some 1024⟩ ⟨some 5, none⟩).ret = 0 ∧
    ¬ (cached_file_close ⟨3, 1024, 1, some 1024⟩ ⟨some 5, none⟩).ret < 0 := by
  decide

/-- Claim C3, counterexample: a read and a write during which the OS
reports an I/O error (stream error flag set, zero bytes transferred)
return 0, a nonnegative count — the error is not surfaced as a
negative error code, contradicting the claim as stated. -/
theorem c3_counterexample :
    (⟨0, true⟩ : TransferResult).err = true ∧
    cached_file_read ⟨3, 1024, 0, some 1024⟩ 4 ⟨0, true⟩ = 0 ∧
    ¬ cached_file_read ⟨3, 1024, 0, some 1024⟩ 4 ⟨0, true⟩ < 0 ∧
    cached_file_write ⟨3, 1024, 1, some 1024⟩ 4 ⟨0, true⟩ = 0 ∧
    ¬ cached_file_write ⟨3, 1024, 1, some 1024⟩ 4 ⟨0, true⟩ < 0 := by
  decide

/-- Claim C3, amended: cached_file_read and cached_file_write return
the transfer count of the underlying fread or fwrite call, a
nonnegative value, whether or not an OS I/O error occurred during the
transfer; the error is never surfaced as a negative return at this
interface. -/
theorem c3_transfer_count_returned (c : CachedFileContext) (size : Nat)
    (r : TransferResult) :
    cached_file_read c size r = (r.count : Int) ∧
    0 ≤ cached_file_read c size r ∧
    cached_file_write c size r = (r.count : Int) ∧
    0 ≤ cached_file_write c size r :=
  ⟨rfl, Int.ofNat_nonneg _, rfl, Int.ofNat_nonneg _⟩

/-- Claim C4: with whence = AVSEEK_SIZE, cached_file_seek flushes all
pending buffered writes (pending becomes 0 and the flushed bytes reach
the file), leaves the logical position unchanged, and returns the
resulting file length; when the fstat query fails it returns the
mapped negative errno instead. -/
theorem c4_seek_size_query (c : CachedFileContext) (s : StreamState)
    (pos : Int) (os : SeekOS) :
    (cached_file_seek c s pos AVSEEK_SIZE os).2.pending = 0 ∧
    (cached_file_seek c s pos AVSEEK_SIZE os).2.pos = s.pos ∧
    (cached_file_seek c s pos AVSEEK_SIZE os).2.fileSize = s.fileSize + s.pending ∧
    (cached_file_seek c s pos AVSEEK_SIZE os).1 =
      (match os.fstatErr with
       | none => ((s.fileSize + s.pending : Nat) : Int)
       | some e => AVERROR e) := by
  cases h : os.fstatErr <;> simp [cached_file_seek, fflushStream, h]

/-- Claim C5, counterexample: the claim says CheckAccess strips any
scheme prefix before querying metadata.  On the filename "cf:x" —
whose scheme-stripped form "x" exists with owner-read permission —
cached_file_check does not strip the "cf:" scheme token (it only
strips "file:"), stats the unstripped path, and returns AVERROR(2)
(ENOENT) instead of the readable bit the claim predicts. -/
theorem c5_counterexample :
    fsC5 "x" = some S_IRUSR ∧
    fsC5 (av_strstart "cf:x" "cf:") = some S_IRUSR ∧
    cached_file_check fsC5 2 "cf:x" (AVIO_FLAG_READ ||| AVIO_FLAG_WRITE) = AVERROR 2 ∧
    AVERROR 2 ≠ (AVIO_FLAG_READ : Int) := by
  decide

/-- Claim C5, amended: CheckAccess strips the literal "file:" token
(only) from the path — the protocol scheme "cf:" is not stripped —
then queries metadata; on stat failure it returns the mapped negative
errno, and on success it returns a nonnegative bitmask whose readable
bit (bit 0) is set iff it was requested and owner-read permission is
set, whose writable bit (bit 1) is set iff it was requested and
owner-write permission is set, and which contains no other bits. -/
theorem c5_check_access_bits (fs : String → Option Nat) (e : Nat)
    (fn : String) (mask : Nat) :
    (fs (av_strstart fn "file:") = none →
       cached_file_check fs e fn mask = AVERROR e) ∧
    (∀ mode, fs (av_strstart fn "file:") = some mode →
       0 ≤ cached_file_check fs e fn mask ∧
       ((cached_file_check fs e fn mask).toNat.testBit 0
           ↔ (mask.testBit 0 ∧ mode &&& S_IRUSR ≠ 0)) ∧
       ((cached_file_check fs e fn mask).toNat.testBit 1
           ↔ (mask.testBit 1 ∧ mode &&& S_IWUSR ≠ 0)) ∧
       (∀ i, 2 ≤ i →
           (cached_file_check fs e fn mask).toNat.testBit i = false)) := by
  constructor
  · intro hn
    simp [cached_file_check, hn]
  · intro mode hs
    have hck : cached_file_check fs e fn mask =
        (((if mode &&& S_IRUSR ≠ 0 then mask &&& 1 else 0) |||
          (if mode &&& S_IWUSR ≠ 0 then mask &&& 2 else 0) : Nat) : Int) := by
      simp only [cached_file_check, hs, AVIO_FLAG_READ, AVIO_FLAG_WRITE]
    refine ⟨?_, ?_, ?_, ?_⟩
    · rw [hck]
      exact Int.ofNat_nonneg _
    · rw [hck, Int.toNat_natCast, check_result_testBit]
      simp
    · rw [hck, Int.toNat_natCast, check_result_testBit]
      simp
    · intro i hi
      rw [hck, Int.toNat_natCast, check_result_testBit]
      have hi0 : ¬ (i = 0) := by omega
      have hi1 : ¬ (i = 1) := by omega
      simp [hi0, hi1]

/-- Claim C5, witness: on a path whose stat reports mode 384 (octal
0600, owner read and write), a check with mask 3 (readable and
writable requested) yields a nonnegative result whose readable bit is
set. -/
theorem c5_check_access_bits_witness :
    0 ≤ cached_file_check (fun _ => some 384) 2 "file:y" 3 ∧
    ((cached_file_check (fun _ => some 384) 2 "file:y" 3).toNat.testBit 0
        ↔ (Nat.testBit 3 0 ∧ 384 &&& S_IRUSR ≠ 0)) := by
  have h := (c5_check_access_bits (fun _ => some 384) 2 "file:y" 3).2 384 rfl
  exact ⟨h.1, h.2.1⟩

/-- Claim C6: cached_file_open maps read-only flags to mode "rb" with
write_flags 0, write-only flags to "wb" with write_flags 1, and
read-write flags to "w+b" with write_flags 1; and no operation run on
an open handle ever changes the write_flags field of its context. -/
theorem c6_open_mode_selection (bs fd e : Nat) (fn : String) :
    ((cached_file_open bs fn AVIO_FLAG_READ (some fd) e).mode = "rb" ∧
     (cached_file_open bs fn AVIO_FLAG_READ (some fd) e).ctx.map
        CachedFileContext.write_flags = some 0) ∧
    ((cached_file_open bs fn AVIO_FLAG_WRITE (some fd) e).mode = "wb" ∧
     (cached_file_open bs fn AVIO_FLAG_WRITE (some fd) e).ctx.map
        CachedFileContext.write_flags = some 1) ∧
    ((cached_file_open bs fn (AVIO_FLAG_READ ||| AVIO_FLAG_WRITE) (some fd) e).mode
        = "w+b" ∧
     (cached_file_open bs fn (AVIO_FLAG_READ ||| AVIO_FLAG_WRITE) (some fd) e).ctx.map
        CachedFileContext.write_flags = some 1) ∧
    (∀ (c : CachedFileContext) (s : StreamState) (l : List FileOp),
       ((runOps c s l).1).write_flags = c.write_flags) :=
  ⟨⟨rfl, rfl⟩, ⟨rfl, rfl⟩, ⟨rfl, rfl⟩,
   fun c s l => by rw [runOps_ctx]⟩

/-- Claim C7: a successful cached_file_open with configured buffer
size bs allocates an owned buffer of exactly bs bytes and attaches it
fully buffered when bs > 0, and leaves the buffer pointer NULL and
the stream unbuffered when bs = 0; and no operation run on an open
handle ever changes the buf field of its context. -/
theorem c7_open_buffer_allocation (bs fd e flags : Nat) (fn : String) :
    (0 < bs →
       (cached_file_open bs fn flags (some fd) e).ret = 0 ∧
       (cached_file_open bs fn flags (some fd) e).ctx.map
          CachedFileContext.buf = some (some bs) ∧
       (cached_file_open bs fn flags (some fd) e).fullyBuffered = true) ∧
    (bs = 0 →
       (cached_file_open bs fn flags (some fd) e).ret = 0 ∧
       (cached_file_open bs fn flags (some fd) e).ctx.map
          CachedFileContext.buf = some none ∧
       (cached_file_open bs fn flags (some fd) e).fullyBuffered = false) ∧
    (∀ (c : CachedFileContext) (s : StreamState) (l : List FileOp),
       ((runOps c s l).1).buf = c.buf) := by
  refine ⟨fun hpos => ?_, fun hz => ?_, fun c s l => by rw [runOps_ctx]⟩
  · have hb : ¬ (bs = 0) := by omega
    simp [cached_file_open, hb]
  · subst hz
    simp [cached_file_open]

/-- Claim C7, witness: open with the default buffer size 1048576
attaches a buffer of exactly that size, and open with buffer size 0
leaves the buffer pointer NULL. -/
theorem c7_open_buffer_allocation_witness :
    (cached_file_open 1048576 "cf:a" 2 (some 7) 0).ctx.map
        CachedFileContext.buf = some (some 1048576) ∧
    (cached_file_open 0 "cf:a" 2 (some 7) 0).ctx.map
        CachedFileContext.buf = some none :=
  ⟨((c7_open_buffer_allocation 1048576 7 0 2 "cf:a").1 (by decide)).2.1,
   ((c7_open_buffer_allocation 0 7 0 2 "cf:a").2.1 rfl).2.1⟩

/-- Claim C8: cached_file_delete and cached_file_move return the same
fixed AVERROR(ENOSYS) value, negative, for every argument. -/
theorem c8_delete_move_enosys (h h_src h_dst : CachedFileContext) :
    cached_file_delete h = AVERROR ENOSYS ∧
    cached_file_move h_src h_dst = AVERROR ENOSYS ∧
    cached_file_delete h = cached_file_move h_src h_dst ∧
    AVERROR ENOSYS = -38 ∧
    AVERROR ENOSYS < 0 :=
  ⟨rfl, rfl, rfl, rfl, by decide⟩

/-- Claim C9: when the flags contain neither the read bit nor the
write bit, cached_file_open still succeeds (given fopen succeeds),
choosing read mode "rb" and write_flags 0, rather than failing. -/
theorem c9_open_unknown_flags_read_mode (bs fd e flags : Nat) (fn : String)
    (hw : flags &&& AVIO_FLAG_WRITE = 0) (hr : flags &&& AVIO_FLAG_READ = 0) :
    (cached_file_open bs fn flags (some fd) e).ret = 0 ∧
    (cached_file_open bs fn flags (some fd) e).mode = "rb" ∧
    (cached_file_open bs fn flags (some fd) e).ctx.map
        CachedFileContext.write_flags = some 0 := by
  simp [cached_file_open, hw]

/-- Claim C9, witness: flags value 0 requests neither read nor write,
and open chooses "rb" with write_flags 0 and succeeds. -/
theorem c9_open_unknown_flags_read_mode_witness :
    (cached_file_open 1048576 "cf:a" 0 (some 7) 0).ret = 0 ∧
    (cached_file_open 1048576 "cf:a" 0 (some 7) 0).mode = "rb" ∧
    (cached_file_open 1048576 "cf:a" 0 (some 7) 0).ctx.map
        CachedFileContext.write_flags = some 0 :=
  c9_open_unknown_flags_read_mode 1048576 7 0 0 "cf:a" rfl rfl

/-- Claim C10: given the stdio contract that a transfer count never
exceeds the requested size, cached_file_read and cached_file_write
always return a value in the range from 0 to the requested size and
never a negative error code. -/
theorem c10_read_write_range (c : CachedFileContext) (size : Nat)
    (r : TransferResult) (hle : r.count ≤ size) :
    0 ≤ cached_file_read c size r ∧
    cached_file_read c size r ≤ (size : Int) ∧
    0 ≤ cached_file_write c size r ∧
    cached_file_write c size r ≤ (size : Int) := by
  refine ⟨Int.ofNat_nonneg _, ?_, Int.ofNat_nonneg _, ?_⟩ <;>
    · show (r.count : Int) ≤ (size : Int)
      exact_mod_cast hle

/-- Claim C10, witness: a transfer of 5 of 8 requested bytes yields a
read result between 0 and 8. -/
theorem c10_read_write_range_witness :
    0 ≤ cached_file_read ⟨3, 0, 0, none⟩ 8 ⟨5, false⟩ ∧
    cached_file_read ⟨3, 0, 0, none⟩ 8 ⟨5, false⟩ ≤ (8 : Int) :=
  ⟨(c10_read_write_range ⟨3, 0, 0, none⟩ 8 ⟨5, false⟩ (by decide)).1,
   (c10_read_write_range ⟨3, 0, 0, none⟩ 8 ⟨5, false⟩ (by decide)).2.1⟩

end CachedFile
